import Mathlib

/-!
Verification of the RiceGuard image-classification inference pipeline
(`backend/app/services/ml_service.py`, class `RiceDiseaseClassifier`, plus the
ML-related fields of `backend/app/core/config.py`).

The Python code is shallowly embedded:

* Python dicts returned by `predict`, `validate_image_data` and
  `_get_fallback_prediction` become structures whose `Option` fields encode
  key presence (`none` = the key is absent from the dict).
* External libraries (PIL decoding / conversion / resizing, TensorFlow model
  inference, the filesystem) are passed in as explicit function parameters,
  so theorems quantify over every possible behaviour of the environment.
* Machine floats become `ℚ`; byte strings become `List (Fin 256)`.
* `os.path` helpers (`join`, `dirname`, `abspath`/`normpath`) are modelled
  over the character list of the path, following their documented POSIX
  semantics.
-/

namespace RiceGuard

/-- ML-relevant configuration fields from `config.py` (`Settings`).
`has_confidence_margin` models `hasattr(settings, 'CONFIDENCE_MARGIN')`,
which is true for the repository's `Settings` class. -/
structure MLSettings where
  MODEL_PATH : String
  CONFIDENCE_THRESHOLD : ℚ
  CONFIDENCE_MARGIN : ℚ
  has_confidence_margin : Bool

/-- The default configuration from `config.py`:
`MODEL_PATH = "ml/model.h5"`, `CONFIDENCE_THRESHOLD = 0.50`,
`CONFIDENCE_MARGIN = 0.30`, and `CONFIDENCE_MARGIN` is an attribute. -/
def settings : MLSettings :=
  { MODEL_PATH := "ml/model.h5"
    CONFIDENCE_THRESHOLD := 1/2
    CONFIDENCE_MARGIN := 3/10
    has_confidence_margin := true }

/-- `self.class_names` (ml_service.py lines 19–25). -/
def class_names : List String :=
  ["bacterial_blight", "brown_spot", "healthy", "leaf_blast", "tungro"]

/-- `self.disease_info` (ml_service.py lines 26–47): maps a disease key to
its `(name, description)` pair; `none` for keys absent from the dict. -/
def disease_info : String → Option (String × String)
  | "bacterial_blight" =>
      some ("Bacterial Blight",
            "Bacterial disease causing water-soaked lesions on leaf margins")
  | "brown_spot" =>
      some ("Brown Spot",
            "Fungal disease causing brown, oval spots with gray centers")
  | "healthy" =>
      some ("Healthy Leaf",
            "No disease detected - leaf appears healthy")
  | "leaf_blast" =>
      some ("Leaf Blast",
            "Fungal disease causing diamond-shaped lesions with gray centers")
  | "tungro" =>
      some ("Tungro",
            "Viral disease causing yellow-orange discoloration and stunting")
  | _ => none

/-- Split a character list at every occurrence of `sep`
(model of Python `str.split(sep)` for a one-character separator). -/
def splitCharAux (sep : Char) : List Char → List Char → List String
  | [], acc => [String.mk acc.reverse]
  | c :: cs, acc =>
      if c = sep then String.mk acc.reverse :: splitCharAux sep cs []
      else splitCharAux sep cs (c :: acc)

/-- Split a string at every occurrence of the character `sep`. -/
def splitChar (sep : Char) (s : String) : List String :=
  splitCharAux sep s.data []

/-- Model of Python `str.replace(old, new)` for one-character arguments. -/
def replaceChar (old new : Char) (s : String) : String :=
  String.mk (s.data.map fun c => if c = old then new else c)

/-- Model of Python `str.title()` restricted to the lower-case inputs it is
applied to in ml_service.py: capitalize each space-separated word. -/
def pyTitle (s : String) : String :=
  String.intercalate " " ((splitChar ' ' s).map String.capitalize)

/-- One element of the `all_predictions` list in a prediction dict
(ml_service.py lines 368–375 and 401–408). -/
structure ScoreEntry where
  disease : String
  confidence : ℚ
  disease_name : String
deriving DecidableEq, Repr

/-- The dict returned by `validate_image_data` (ml_service.py lines 227–269).
`none` encodes an absent key.  The Python dict reuses the key `"size"` both
for the byte count (error branches) and for the pixel dimensions `(w, h)`
(decoded branch); these become the two fields `size_bytes` / `size_dims`. -/
structure ValidationInfo where
  valid : Bool
  error : Option String := none
  warning : Option String := none
  format : Option String := none
  mode : Option String := none
  size_dims : Option (Nat × Nat) := none
  size_bytes : Option Nat := none
  file_size : Option Nat := none
deriving DecidableEq, Repr

/-- A prediction dict, as returned (in the first component) by `predict` and
by `_get_fallback_prediction`.  `Option` fields encode key presence: the
error-branch dicts of `predict` (lines 278–284 and 297–303) carry `error`
and possibly `validation_info` but no `all_predictions`, no `disease_name`,
no `fallback_reason`, etc. -/
structure PredictionResult where
  disease : String
  disease_name : Option String := none
  confidence : ℚ
  description : Option String := none
  error : Option String := none
  success : Bool
  model_status : Option String := none
  fallback_reason : Option String := none
  confidence_threshold_met : Option Bool := none
  all_predictions : Option (List ScoreEntry) := none
  validation_info : Option ValidationInfo := none
deriving DecidableEq, Repr

/-- `_get_fallback_prediction` (ml_service.py lines 385–411).  A pure
function of the reason string.  `self.disease_info[disease]["name"]` is a
direct dict index; every element of `class_names` is a key of
`disease_info`, so the `getD` default is unreachable. -/
def get_fallback_prediction (reason : String) : PredictionResult :=
  { disease := "healthy"
    disease_name := some "Healthy Leaf"
    confidence := 1/2
    description := some "Unable to process image - defaulting to healthy classification"
    success := false
    fallback_reason := some reason
    model_status := some "unavailable"
    confidence_threshold_met := some false
    all_predictions := some (class_names.map fun disease =>
      { disease := disease
        confidence := if disease ≠ "healthy" then 1/5 else 1/2
        disease_name := ((disease_info disease).getD ("", "")).1 }) }

/-- A POSIX path is absolute iff it starts with a slash
(model of `os.path.isabs`). -/
def isAbsPath (p : String) : Bool :=
  match p.data with
  | [] => false
  | c :: _ => c = '/'

/-- Model of binary `os.path.join`: a second absolute component discards
everything before it. -/
def joinPath (a b : String) : String :=
  if isAbsPath b then b else a ++ "/" ++ b

/-- Model of `os.path.dirname` on the paths that occur here (no trailing or
doubled slashes): everything before the last slash, `"/"` for a top-level
entry, `""` when there is no slash. -/
def dirname (p : String) : String :=
  let parts := splitChar '/' p
  if parts.length ≤ 1 then ""
  else
    let d := String.intercalate "/" parts.dropLast
    if d = "" ∧ isAbsPath p then "/" else d

/-- Component loop of `os.path.normpath`: drop `""` and `"."` components,
let `".."` cancel a preceding real component (or vanish at the root of an
absolute path). -/
def normPathAux (isabs : Bool) : List String → List String → List String
  | acc, [] => acc.reverse
  | acc, c :: rest =>
      if c = ".." then
        match acc with
        | [] => normPathAux isabs (if isabs then [] else [c]) rest
        | a :: acc' =>
            if a = ".." then normPathAux isabs (c :: acc) rest
            else normPathAux isabs acc' rest
      else normPathAux isabs (c :: acc) rest

/-- Model of `os.path.normpath`. -/
def normPath (p : String) : String :=
  let isabs := isAbsPath p
  let comps := (splitChar '/' p).filter fun c => ¬(c = "" ∨ c = ".")
  let body := String.intercalate "/" (normPathAux isabs [] comps)
  if isabs then (if body = "" then "/" else "/" ++ body)
  else (if body = "" then "." else body)

/-- The filesystem-environment a path-resolution call observes:
`cwd` is `os.getcwd()` (absolute), `filePath` is `__file__` for
`ml_service.py`, and `pathExists` is `os.path.exists`. -/
structure PathEnv where
  cwd : String
  filePath : String
  pathExists : String → Bool

/-- Model of `os.path.abspath`: `normpath(join(cwd, p))`. -/
def abspath (env : PathEnv) (p : String) : String :=
  normPath (joinPath env.cwd p)

/-- The ordered candidate list of `_resolve_model_path`
(ml_service.py lines 55–71), after filtering out the `None` entry that
replaces `settings.MODEL_PATH` when it is not absolute.  Note the absolute
configured `MODEL_PATH` is the LAST candidate. -/
def model_path_candidates (env : PathEnv) (s : MLSettings) : List String :=
  ([ some (joinPath (joinPath env.cwd "ml") "model.h5"),
     some (joinPath (joinPath (dirname env.cwd) "ml") "model.h5"),
     some (joinPath (joinPath (joinPath (joinPath (dirname env.filePath) "..") "..") "ml") "model.h5"),
     some (joinPath (joinPath (joinPath (dirname env.filePath) "..") "..") s.MODEL_PATH),
     some (joinPath (joinPath (joinPath (joinPath (joinPath (dirname env.filePath) "..") "..") "..") (joinPath "riceguard" "ml")) "model.h5"),
     if isAbsPath s.MODEL_PATH then some s.MODEL_PATH else none ] :
    List (Option String)).filterMap id

/-- `_resolve_model_path` (ml_service.py lines 49–82): the absolute form of
the first existing candidate, `none` when no candidate exists. -/
def resolve_model_path (env : PathEnv) (s : MLSettings) : Option String :=
  match (model_path_candidates env s).find? (fun p => env.pathExists p) with
  | some p => some (abspath env p)
  | none => none

/-- The mutable classifier fields set in `__init__` and written by
`load_model`: `self.model`, `self.model_loaded`, `self.load_error`.
`M` is the type of the opaque deserialized TensorFlow model object. -/
structure ClassifierState (M : Type) where
  model : Option M
  model_loaded : Bool
  load_error : Option String
deriving Repr

/-- `__init__` (ml_service.py lines 15–18). -/
def initState (M : Type) : ClassifierState M :=
  { model := none, model_loaded := false, load_error := none }

/-- `load_model` (ml_service.py lines 84–132), as a state transformer
returning the Python boolean result together with the new state.
`loadFile` models `tf.keras.models.load_model`; an exception becomes
`.error msg` with `msg` the exception text.  Both the file-size warning and
the log calls have no effect on the state and are omitted.  The function is
total: no Lean-level exception can escape, mirroring the `try/except` that
converts every failure into a `False` return. -/
def load_model {M : Type} (env : PathEnv) (s : MLSettings)
    (loadFile : String → Except String M) (st : ClassifierState M) :
    Bool × ClassifierState M :=
  if st.model_loaded then (true, st)
  else
    match resolve_model_path env s with
    | none =>
        (false, { st with load_error := some "Model file not found in any expected location"
                          model_loaded := false })
    | some model_path =>
        if env.pathExists model_path = false then
          (false, { st with load_error := some ("Model path resolved but file not found: " ++ model_path)
                            model_loaded := false })
        else
          match loadFile model_path with
          | .error e =>
              (false, { st with load_error := some ("Failed to load ML model: " ++ e)
                                model := none
                                model_loaded := false })
          | .ok m =>
              (true, { st with model := some m
                               model_loaded := true
                               load_error := none })

/-- `is_model_available` (ml_service.py lines 134–136). -/
def is_model_available {M : Type} (st : ClassifierState M) : Bool :=
  st.model_loaded && st.model.isSome

/-- Raw image bytes (`bytes` in Python). -/
def ByteData : Type := List (Fin 256)

/-- A decoded PIL image as the pipeline observes it: its reported format
(PIL's `Image.format`, `none` for Python `None`), mode, pixel dimensions
(`Image.size` is `(width, height)`), and an 8-bit pixel grid with three
channels (the channel view after any mode is converted to RGB). -/
structure PILImage where
  mode : String
  format : Option String
  width : Nat
  height : Nat
  px : Nat → Nat → Fin 3 → Fin 256

/-- `PIL.Image.open` on a byte buffer: `.error msg` models a raised
exception with text `msg`.  The library call is deterministic in the bytes,
so one parameter serves every call site. -/
def DecodeFun : Type := List (Fin 256) → Except String PILImage

/-- The format whitelist of ml_service.py line 259.  A decoded image whose
`format` attribute is Python `None` renders as the string `"None"` in the
f-string and is never in the whitelist. -/
def acceptable_formats : List String := ["JPEG", "JPG", "PNG", "BMP", "TIFF"]

/-- `validate_image_data` (ml_service.py lines 227–269).  Emphatically, a
format outside the whitelist only sets the `warning` key: `valid` stays
`true` (the source uses `elif ... info["warning"] = ...`, not an error). -/
def validate_image_data (decode : DecodeFun) (image_data : List (Fin 256)) :
    ValidationInfo :=
  if image_data = [] then
    { valid := false
      error := some "No image data provided"
      size_bytes := some 0 }
  else
    match decode image_data with
    | .error e =>
        { valid := false
          error := some ("Invalid image data: " ++ e)
          size_bytes := some image_data.length }
    | .ok image =>
        let info : ValidationInfo :=
          { valid := true
            format := image.format
            mode := some image.mode
            size_dims := some (image.width, image.height)
            file_size := some image_data.length }
        if image_data.length > 50 * 1024 * 1024 then
          { info with valid := false, error := some "Image too large (>50MB)" }
        else if image.width < 50 ∨ image.height < 50 then
          { info with valid := false, error := some "Image too small (<50x50 pixels)" }
        else if ¬ (image.format.getD "None" ∈ acceptable_formats) then
          { info with warning := some ("Unusual image format: " ++ image.format.getD "None") }
        else info

/-- A numpy float array of rank 4, as produced by `preprocess_image`:
its `shape` tuple and its entries. -/
structure Tensor4 where
  shape : List Nat
  entry : Nat → Nat → Nat → Nat → ℚ

/-- `preprocess_image` (ml_service.py lines 147–225).  `convertRGB` models
`Image.convert('RGB')` and `resize` models `Image.resize(target, LANCZOS)`
(both resampling-constant branches call the same filter, so they collapse to
one parameter).  `np.array` of an RGB image of size `(w, h)` has shape
`(h, w, 3)`; the source's shape check therefore compares `(height, width)`
against `(224, 224)`.  The mean-pixel check only logs and is omitted; the
retry around `Image.open` re-parses the same bytes with the same decoder and
so collapses to a single decode. -/
def preprocess_image (decode : DecodeFun) (convertRGB : PILImage → PILImage)
    (resize : PILImage → Nat → Nat → PILImage) (image_data : List (Fin 256)) :
    Option Tensor4 :=
  if image_data = [] then none
  else if image_data.length < 100 then none
  else
    match decode image_data with
    | .error _ => none
    | .ok image0 =>
        let image1 := if image0.mode ≠ "RGB" then convertRGB image0 else image0
        let image2 := resize image1 224 224
        if image2.height = 224 ∧ image2.width = 224 then
          some { shape := [1, 224, 224, 3]
                 entry := fun _ i j c =>
                   ((image2.px i j ⟨c % 3, Nat.mod_lt c (by omega)⟩ : Fin 256) : ℚ) / 255 }
        else none

/-- Outcome of `self.model.predict(processed_image, verbose=0)`:
the call can raise, return Python `None`, or return an array of
per-image score vectors. -/
inductive ModelCallResult where
  | raised
  | returnedNone
  | output (preds : List (List ℚ))

/-- `ModelPredictFun t` is the TensorFlow forward pass, abstracted. -/
def ModelPredictFun : Type := Tensor4 → ModelCallResult

/-- First index of the maximum, scanning left to right with a strict
improvement test — the accumulator invariant of `np.argmax`. -/
def argmaxAux : List ℚ → Nat → Nat → ℚ → Nat
  | [], _, besti, _ => besti
  | x :: xs, i, besti, bestv =>
      if bestv < x then argmaxAux xs (i + 1) i x
      else argmaxAux xs (i + 1) besti bestv

/-- `np.argmax` on a score vector (first index of the maximum; `0` on the
empty vector, which never occurs on the path that uses it). -/
def argmaxIdx : List ℚ → Nat
  | [] => 0
  | x :: xs => argmaxAux xs 1 0 x

/-- `np.max` on a score vector (`0` on the empty vector, never reached). -/
def listMax : List ℚ → ℚ
  | [] => 0
  | x :: xs => xs.foldl max x

/-- Insert into a descending list, keeping it descending. -/
def insertDesc (x : ℚ) : List ℚ → List ℚ
  | [] => [x]
  | y :: ys => if y ≤ x then x :: y :: ys else y :: insertDesc x ys

/-- `np.sort(...)[::-1]`: the scores sorted in descending order. -/
def sortDesc : List ℚ → List ℚ
  | [] => []
  | x :: xs => insertDesc x (sortDesc xs)

/-- Lines 334–337 of `predict`: the defensive clamp of the top confidence
into `[0, 1]` (a no-op when it is already in range). -/
def clampConf (rawConf : ℚ) : ℚ :=
  if 0 ≤ rawConf ∧ rawConf ≤ 1 then rawConf else max 0 (min 1 rawConf)

/-- Lines 350–358 of `predict`: the threshold test followed by the
conditional margin test on the two top-ranked scores of the sorted output
vector. -/
def meets_threshold_calc (s : MLSettings) (confidence : ℚ)
    (prediction_array : List ℚ) : Bool :=
  let meets0 := decide (s.CONFIDENCE_THRESHOLD ≤ confidence)
  if meets0 = true ∧ s.has_confidence_margin = true then
    let sorted := sortDesc prediction_array
    if 2 ≤ sorted.length then
      meets0 && decide (s.CONFIDENCE_MARGIN ≤ sorted.headD 0 - (sorted.drop 1).headD 0)
    else meets0
  else meets0

/-- Lines 325–379 of `predict`: everything from `prediction_array` onward,
given the first row of the model output.  Returns the result dict plus the
`meets_threshold` boolean that `predict` also returns as its second
component. -/
def classify_output (s : MLSettings) (prediction_array : List ℚ) :
    PredictionResult × Bool :=
  if prediction_array.length ≠ class_names.length then
    (get_fallback_prediction "Model output format mismatch", false)
  else
    let predicted_class_idx := argmaxIdx prediction_array
    let confidence := clampConf (listMax prediction_array)
    if predicted_class_idx < class_names.length then
      let disease_key := class_names.getD predicted_class_idx ""
      let dinfo := (disease_info disease_key).getD
        (pyTitle (replaceChar '_' ' ' disease_key), "Unknown disease")
      let meets := meets_threshold_calc s confidence prediction_array
      ({ disease := disease_key
         disease_name := some dinfo.1
         confidence := confidence
         description := some dinfo.2
         success := true
         model_status := some "loaded"
         confidence_threshold_met := some meets
         all_predictions := some ((List.range class_names.length).map fun i =>
           { disease := class_names.getD i ""
             confidence := prediction_array.getD i 0
             disease_name := ((disease_info (class_names.getD i "")).getD ("", "")).1 }) },
       meets)
    else (get_fallback_prediction "Invalid prediction result", false)

/-- `predict` (ml_service.py lines 271–383).  `avail` is the value of
`self.is_model_available()` at entry and `loadOk` the result of the
`self.load_model()` attempt made when it is false; the remaining parameters
are the external library calls.  The final catch-all `except` is
unreachable in the embedding because every modelled operation is total. -/
def predict (s : MLSettings) (decode : DecodeFun)
    (convertRGB : PILImage → PILImage) (resize : PILImage → Nat → Nat → PILImage)
    (avail loadOk : Bool) (modelPredict : ModelPredictFun)
    (image_data : List (Fin 256)) : PredictionResult × Bool :=
  if image_data = [] then
    ({ disease := "error"
       confidence := 0
       error := some "No image data provided"
       success := false }, false)
  else if avail = false ∧ loadOk = false then
    (get_fallback_prediction "Model not available", false)
  else
    let validation_result := validate_image_data decode image_data
    if validation_result.valid = false then
      ({ disease := "error"
         confidence := 0
         error := some ("Invalid image: " ++ validation_result.error.getD "Unknown error")
         success := false
         validation_info := some validation_result }, false)
    else
      match preprocess_image decode convertRGB resize image_data with
      | none => (get_fallback_prediction "Image preprocessing failed", false)
      | some processed_image =>
          match modelPredict processed_image with
          | .raised => (get_fallback_prediction "Model prediction failed", false)
          | .returnedNone => (get_fallback_prediction "No predictions from model", false)
          | .output preds =>
              match preds with
              | [] => (get_fallback_prediction "No predictions from model", false)
              | prediction_array :: _ => classify_output s prediction_array

/-! ### Shared concrete fixtures used by counterexamples and witnesses -/

/-- A decoded 100×100 RGB JPEG test image, all pixels zero. -/
def imgW : PILImage :=
  { mode := "RGB", format := some "JPEG", width := 100, height := 100,
    px := fun _ _ _ => 0 }

/-- A decoder that always succeeds with `imgW`. -/
def decodeW : DecodeFun := fun _ => .ok imgW

/-- A conversion double: identity (only reached on non-RGB inputs). -/
def convW : PILImage → PILImage := id

/-- A resize double honouring PIL's contract: the result has the requested
dimensions. -/
def resizeW : PILImage → Nat → Nat → PILImage :=
  fun im w h => { im with width := w, height := h }

/-- 100 bytes of input data (enough to pass the minimum-size floor). -/
def dataW : List (Fin 256) := List.replicate 100 0

/-- A concrete score row: class 2 (`healthy`) at 0.6, the rest at 0.1. -/
def predW : List ℚ := [1/10, 1/10, 3/5, 1/10, 1/10]

/-- A model double that returns the batch `[predW]`. -/
def mpW : ModelPredictFun := fun _ => .output [predW]

/-- A decoded 100×100 image whose reported format is GIF (outside the
whitelist). -/
def imgGif : PILImage :=
  { mode := "RGB", format := some "GIF", width := 100, height := 100,
    px := fun _ _ _ => 0 }

/-- A decoder that always succeeds with `imgGif`. -/
def decodeGif : DecodeFun := fun _ => .ok imgGif

/-- A throwaway tensor used only as a `getD` default below. -/
def t0 : Tensor4 := { shape := [], entry := fun _ _ _ _ => 0 }

/-- The tensor `preprocess_image` actually produces on the `decodeW`
fixture. -/
def tW : Tensor4 := (preprocess_image decodeW convW resizeW dataW).getD t0

/-- The tensor `preprocess_image` actually produces on the `decodeGif`
fixture. -/
def tGif : Tensor4 := (preprocess_image decodeGif convW resizeW dataW).getD t0

/-- A filesystem environment in which both the working-directory-relative
guess and the configured absolute `MODEL_PATH` exist. -/
def envW : PathEnv :=
  { cwd := "/app/backend"
    filePath := "/app/backend/app/services/ml_service.py"
    pathExists := fun p => p = "/app/backend/ml/model.h5" || p = "/opt/model.h5" }

/-- A filesystem environment in which no path exists at all. -/
def envNone : PathEnv :=
  { cwd := "/app/backend"
    filePath := "/app/backend/app/services/ml_service.py"
    pathExists := fun _ => false }

/-- The default settings with an absolute configured `MODEL_PATH`. -/
def sAbs : MLSettings := { settings with MODEL_PATH := "/opt/model.h5" }

/-- The state invariant of claim C10: a loaded classifier holds a model
reference. -/
def stateInv {M : Type} (st : ClassifierState M) : Prop :=
  st.model_loaded = true → st.model ≠ none

/-! ### Helper lemmas -/

theorem insertDesc_length (x : ℚ) (l : List ℚ) :
    (insertDesc x l).length = l.length + 1 := by
  induction l with
  | nil => rfl
  | cons y ys ih =>
      unfold insertDesc
      by_cases h : y ≤ x
      · simp [h]
      · simp [h, ih]

theorem sortDesc_length (l : List ℚ) : (sortDesc l).length = l.length := by
  induction l with
  | nil => rfl
  | cons x xs ih => simp [sortDesc, insertDesc_length, ih]

theorem headD_insertDesc (x d : ℚ) (l : List ℚ) :
    (insertDesc x l).headD d = max x (l.headD x) := by
  cases l with
  | nil => simp [insertDesc]
  | cons y ys =>
      unfold insertDesc
      by_cases h : y ≤ x
      · simp [h, max_eq_left h]
      · simp [h, max_eq_right (le_of_not_le h)]

theorem foldl_max_shift (a b : ℚ) (l : List ℚ) :
    l.foldl max (max a b) = max a (l.foldl max b) := by
  induction l generalizing b with
  | nil => rfl
  | cons c l' ih => simp only [List.foldl_cons, max_assoc, ih]

theorem headD_sortDesc_cons (l : List ℚ) : ∀ (x d : ℚ),
    (sortDesc (x :: l)).headD d = listMax (x :: l) := by
  induction l with
  | nil => intro x d; rfl
  | cons y ys ih =>
      intro x d
      show (insertDesc x (sortDesc (y :: ys))).headD d = listMax (x :: y :: ys)
      rw [headD_insertDesc, ih y x]
      simp only [listMax, List.foldl_cons]
      exact (foldl_max_shift x y ys).symm

theorem headD_sortDesc (l : List ℚ) (h : l ≠ []) (d : ℚ) :
    (sortDesc l).headD d = listMax l := by
  cases l with
  | nil => exact absurd rfl h
  | cons x xs => exact headD_sortDesc_cons xs x d

theorem argmaxAux_lt (xs : List ℚ) : ∀ (i besti : Nat) (bestv : ℚ),
    besti < i → argmaxAux xs i besti bestv < i + xs.length := by
  induction xs with
  | nil => intro i besti bestv h; simpa [argmaxAux] using h
  | cons x xs ih =>
      intro i besti bestv h
      unfold argmaxAux
      by_cases hx : bestv < x
      · simp only [hx, if_pos]
        have := ih (i + 1) i x (Nat.lt_succ_self i)
        simpa [Nat.add_comm, Nat.add_left_comm] using this
      · simp only [hx, if_neg, ite_false]
        have := ih (i + 1) besti bestv (Nat.lt_succ_of_lt h)
        simpa [Nat.add_comm, Nat.add_left_comm] using this

theorem argmaxIdx_lt (l : List ℚ) (h : l ≠ []) : argmaxIdx l < l.length := by
  cases l with
  | nil => exact absurd rfl h
  | cons x xs =>
      have := argmaxAux_lt xs 1 0 x Nat.one_pos
      simpa [argmaxIdx, Nat.add_comm] using this

theorem getD_mem_of_lt : ∀ (l : List String) (i : Nat), i < l.length →
    l.getD i "" ∈ l
  | a :: l, 0, _ => List.mem_cons_self a l
  | a :: l, i + 1, h =>
      List.mem_cons_of_mem a (getD_mem_of_lt l i (Nat.lt_of_succ_lt_succ h))

theorem find_eq_get_of_first {α : Type} (q : α → Bool) :
    ∀ (l : List α) (i : Nat) (h : i < l.length),
      q (l.get ⟨i, h⟩) = true →
      (∀ j (hj : j < i), q (l.get ⟨j, Nat.lt_trans hj h⟩) = false) →
      l.find? q = some (l.get ⟨i, h⟩) := by
  intro l
  induction l with
  | nil => intro i h; exact absurd h (Nat.not_lt_zero i)
  | cons a l ih =>
      intro i h hq hprev
      cases i with
      | zero => exact List.find?_cons_of_pos _ hq
      | succ j =>
          have ha : q a = false := hprev 0 (Nat.succ_pos j)
          rw [List.find?_cons_of_neg _ (by simp [ha])]
          exact ih j (Nat.lt_of_succ_lt_succ h) hq
            (fun k hk => hprev (k + 1) (Nat.succ_lt_succ hk))

/-- On the success path, `predict` returns the value of `classify_output`
on the first row of the model output. -/
theorem predict_eq_classify (s : MLSettings) (dec : DecodeFun)
    (cv : PILImage → PILImage) (rs : PILImage → Nat → Nat → PILImage)
    (avail loadOk : Bool) (mp : ModelPredictFun) (data : List (Fin 256))
    (t : Tensor4) (pred : List ℚ) (rest : List (List ℚ))
    (hdata : data ≠ [])
    (hload : avail = true ∨ loadOk = true)
    (hvalid : (validate_image_data dec data).valid = true)
    (hpre : preprocess_image dec cv rs data = some t)
    (hmp : mp t = .output (pred :: rest)) :
    predict s dec cv rs avail loadOk mp data = classify_output s pred := by
  have hcond : ¬(avail = false ∧ loadOk = false) := by
    rcases hload with h | h <;> simp [h]
  simp only [predict, if_neg hdata, if_neg hcond, hvalid, hpre, hmp]
  simp

/-- The threshold/margin decision, characterised: for an output vector with
at least two entries (after sorting) and a configuration that has a
`CONFIDENCE_MARGIN` attribute, the flag is true exactly when the confidence
passes `CONFIDENCE_THRESHOLD` and the gap between the two top-ranked scores
passes `CONFIDENCE_MARGIN`. -/
theorem meets_threshold_calc_spec (s : MLSettings) (conf : ℚ)
    (pred : List ℚ) (hmargin : s.has_confidence_margin = true)
    (hlen2 : 2 ≤ (sortDesc pred).length) :
    (meets_threshold_calc s conf pred = true ↔
      s.CONFIDENCE_THRESHOLD ≤ conf ∧
      s.CONFIDENCE_MARGIN ≤ (sortDesc pred).headD 0 - ((sortDesc pred).drop 1).headD 0) := by
  unfold meets_threshold_calc
  by_cases hT : s.CONFIDENCE_THRESHOLD ≤ conf
  · rw [if_pos ⟨by simp [hT], hmargin⟩, if_pos hlen2]
    simp [hT]
  · rw [if_neg (by simp [hT])]
    simp [hT]

/-- The success-path value of `classify_output`, for a score vector of the
right length: the full result dict, with `confidence_threshold_met`
carrying the same boolean as the second component. -/
theorem classify_output_eq_of_len (s : MLSettings) (pred : List ℚ)
    (hlen : pred.length = class_names.length) :
    classify_output s pred =
      ({ disease := class_names.getD (argmaxIdx pred) ""
         disease_name := some ((disease_info (class_names.getD (argmaxIdx pred) "")).getD
           (pyTitle (replaceChar '_' ' ' (class_names.getD (argmaxIdx pred) "")), "Unknown disease")).1
         confidence := clampConf (listMax pred)
         description := some ((disease_info (class_names.getD (argmaxIdx pred) "")).getD
           (pyTitle (replaceChar '_' ' ' (class_names.getD (argmaxIdx pred) "")), "Unknown disease")).2
         success := true
         model_status := some "loaded"
         confidence_threshold_met := some (meets_threshold_calc s (clampConf (listMax pred)) pred)
         all_predictions := some ((List.range class_names.length).map fun i =>
           { disease := class_names.getD i ""
             confidence := pred.getD i 0
             disease_name := ((disease_info (class_names.getD i "")).getD ("", "")).1 }) },
       meets_threshold_calc s (clampConf (listMax pred)) pred) := by
  have hne : pred ≠ [] := by
    intro h; rw [h] at hlen; simp [class_names] at hlen
  have hidx : argmaxIdx pred < class_names.length := hlen ▸ argmaxIdx_lt pred hne
  unfold classify_output
  rw [if_neg (by simp [hlen]), if_pos hidx]

/-- Exhaustive case split over the return paths of `predict`: the empty-input
error dict, the validation-error dict, a fallback dict, or the success value
`classify_output` on a score row of the right length. -/
theorem predict_cases (s : MLSettings) (dec : DecodeFun)
    (cv : PILImage → PILImage) (rs : PILImage → Nat → Nat → PILImage)
    (avail loadOk : Bool) (mp : ModelPredictFun) (data : List (Fin 256)) :
    predict s dec cv rs avail loadOk mp data =
      ({ disease := "error", confidence := 0,
         error := some "No image data provided", success := false }, false) ∨
    (∃ v : ValidationInfo, predict s dec cv rs avail loadOk mp data =
      ({ disease := "error", confidence := 0,
         error := some ("Invalid image: " ++ v.error.getD "Unknown error"),
         success := false, validation_info := some v }, false)) ∨
    (∃ reason, predict s dec cv rs avail loadOk mp data =
      (get_fallback_prediction reason, false)) ∨
    (∃ pred : List ℚ, pred.length = class_names.length ∧
      predict s dec cv rs avail loadOk mp data = classify_output s pred) := by
  by_cases hdata : data = []
  · left; simp [predict, hdata]
  · by_cases hml : avail = false ∧ loadOk = false
    · right; right; left
      exact ⟨"Model not available", by simp [predict, hdata, hml]⟩
    · by_cases hvalid : (validate_image_data dec data).valid = false
      · right; left
        exact ⟨validate_image_data dec data, by simp [predict, hdata, hml, hvalid]⟩
      · have hred : ∀ (res : PredictionResult × Bool),
            (match preprocess_image dec cv rs data with
              | none => (get_fallback_prediction "Image preprocessing failed", false)
              | some processed_image =>
                  match mp processed_image with
                  | .raised => (get_fallback_prediction "Model prediction failed", false)
                  | .returnedNone => (get_fallback_prediction "No predictions from model", false)
                  | .output preds =>
                      match preds with
                      | [] => (get_fallback_prediction "No predictions from model", false)
                      | prediction_array :: _ => classify_output s prediction_array) = res →
            predict s dec cv rs avail loadOk mp data = res := by
          intro res h
          simpa [predict, hdata, hml, hvalid] using h
        cases hpre : preprocess_image dec cv rs data with
        | none =>
            right; right; left
            exact ⟨"Image preprocessing failed", hred _ (by simp only [hpre])⟩
        | some t =>
            cases hmp : mp t with
            | raised =>
                right; right; left
                exact ⟨"Model prediction failed", hred _ (by simp only [hpre, hmp])⟩
            | returnedNone =>
                right; right; left
                exact ⟨"No predictions from model", hred _ (by simp only [hpre, hmp])⟩
            | output preds =>
                cases preds with
                | nil =>
                    right; right; left
                    exact ⟨"No predictions from model", hred _ (by simp only [hpre, hmp])⟩
                | cons pred rest =>
                    by_cases hlen : pred.length = class_names.length
                    · right; right; right
                      exact ⟨pred, hlen, hred _ (by simp only [hpre, hmp])⟩
                    · right; right; left
                      refine ⟨"Model output format mismatch", hred _ ?_⟩
                      simp only [hpre, hmp, classify_output, if_pos hlen]

/-! ### Claim theorems -/

/-- C1, counterexample: on the empty-input error branch the returned dict
has no `all_predictions` key at all, so its score sequence does not have
length 5 there, contrary to the claim's "every error branch". -/
theorem c1_counterexample :
    (predict settings decodeW convW resizeW true true mpW []).1.all_predictions = none := rfl

/-- C1 (amended): on the success path and on every fallback path the
result's `all_predictions` list has length exactly `class_names.length`
(= 5); the two error-dict branches (empty input and failed coarse
validation) instead omit the key entirely and report `disease = "error"`. -/
theorem c1_all_scores_amended (s : MLSettings) (dec : DecodeFun)
    (cv : PILImage → PILImage) (rs : PILImage → Nat → Nat → PILImage)
    (avail loadOk : Bool) (mp : ModelPredictFun) (data : List (Fin 256)) :
    ((predict s dec cv rs avail loadOk mp data).1.all_predictions = none ∧
     (predict s dec cv rs avail loadOk mp data).1.disease = "error") ∨
    (∃ l, (predict s dec cv rs avail loadOk mp data).1.all_predictions = some l ∧
      l.length = class_names.length) := by
  rcases predict_cases s dec cv rs avail loadOk mp data with
    h | ⟨v, h⟩ | ⟨reason, h⟩ | ⟨pred, hlen, h⟩
  · left; rw [h]; exact ⟨rfl, rfl⟩
  · left; rw [h]; exact ⟨rfl, rfl⟩
  · right; rw [h]
    exact ⟨_, rfl, by simp [get_fallback_prediction]⟩
  · right; rw [h, classify_output_eq_of_len s pred hlen]
    exact ⟨_, rfl, by simp⟩

/-- C3, counterexample: the empty-input branch returns the string
`"error"`, which is outside the fixed label set, contrary to the claim's
"no path ever returns a string outside this set". -/
theorem c3_counterexample :
    (predict settings decodeW convW resizeW true true mpW []).1.disease = "error" ∧
    "error" ∉ class_names := ⟨rfl, by decide⟩

/-- C3 (amended): on the success path and on every fallback path the
returned disease key is a member of the fixed label set; the two error-dict
branches (empty input and failed coarse validation) return the out-of-set
string `"error"` instead. -/
theorem c3_disease_key_amended (s : MLSettings) (dec : DecodeFun)
    (cv : PILImage → PILImage) (rs : PILImage → Nat → Nat → PILImage)
    (avail loadOk : Bool) (mp : ModelPredictFun) (data : List (Fin 256)) :
    (predict s dec cv rs avail loadOk mp data).1.disease ∈ class_names ∨
    (predict s dec cv rs avail loadOk mp data).1.disease = "error" := by
  rcases predict_cases s dec cv rs avail loadOk mp data with
    h | ⟨v, h⟩ | ⟨reason, h⟩ | ⟨pred, hlen, h⟩
  · right; rw [h]
  · right; rw [h]
  · left; rw [h]
    exact (by decide : "healthy" ∈ class_names)
  · left; rw [h, classify_output_eq_of_len s pred hlen]
    have hne : pred ≠ [] := by
      intro hn; rw [hn] at hlen; simp [class_names] at hlen
    exact getD_mem_of_lt class_names (argmaxIdx pred) (hlen ▸ argmaxIdx_lt pred hne)

/-- C4, counterexample: on empty bytes the result's disease key is
`"error"`, not `"healthy"`, and there is no `fallback_reason` key (the
message lives in the `error` key instead), contrary to the claim. -/
theorem c4_counterexample :
    (predict settings decodeW convW resizeW true true mpW []).1.disease ≠ "healthy" ∧
    (predict settings decodeW convW resizeW true true mpW []).1.fallback_reason = none := by
  exact ⟨by decide, rfl⟩

/-- C4 (amended): on empty bytes `predict` returns immediately — the result
is a fixed error dict independent of the model, decoder, and every other
collaborator — with `success = false`, `disease = "error"`, and the message
"No image data provided" in the `error` key; there is no `fallback_reason`
key and no model invocation. -/
theorem c4_empty_input_amended (s : MLSettings) (dec : DecodeFun)
    (cv : PILImage → PILImage) (rs : PILImage → Nat → Nat → PILImage)
    (avail loadOk : Bool) (mp : ModelPredictFun) :
    predict s dec cv rs avail loadOk mp [] =
      ({ disease := "error", confidence := 0,
         error := some "No image data provided", success := false }, false) := rfl

/-- C5: the fallback generator is a pure function of the reason string and
returns exactly this dict: `disease = "healthy"`, `confidence = 0.5`,
`success = false`, `confidence_threshold_met = false`, `fallback_reason`
equal to the given reason, and a full five-class score table in which
`healthy` scores 0.5 and every other class the same default 0.2.  Being a
total Lean function of `reason`, two calls with the same reason are
definitionally identical, which is the claimed idempotence/purity. -/
theorem c5_fallback_pure (reason : String) :
    get_fallback_prediction reason =
      { disease := "healthy"
        disease_name := some "Healthy Leaf"
        confidence := 1/2
        description := some "Unable to process image - defaulting to healthy classification"
        success := false
        fallback_reason := some reason
        model_status := some "unavailable"
        confidence_threshold_met := some false
        all_predictions := some
          [{ disease := "bacterial_blight", confidence := 1/5, disease_name := "Bacterial Blight" },
           { disease := "brown_spot", confidence := 1/5, disease_name := "Brown Spot" },
           { disease := "healthy", confidence := 1/2, disease_name := "Healthy Leaf" },
           { disease := "leaf_blast", confidence := 1/5, disease_name := "Leaf Blast" },
           { disease := "tungro", confidence := 1/5, disease_name := "Tungro" }] } := rfl

/-- C2: on every successful inference (input non-empty, model available or
loadable, validation passed, preprocessing succeeded, the model returned a
batch whose first row has the expected five entries — the only row length
that reaches the success path, and ≥ 2 as the claim requires), the returned
`meets_threshold` flag — also stored as `confidence_threshold_met` — is
true iff the reported (clamped) top confidence is ≥ `CONFIDENCE_THRESHOLD`
and the gap between the top and second-ranked scores of the output vector
is ≥ `CONFIDENCE_MARGIN`.  The third conjunct identifies the top-ranked
sorted score with the maximum of the output vector. -/
theorem c2_meets_threshold_iff (s : MLSettings) (dec : DecodeFun)
    (cv : PILImage → PILImage) (rs : PILImage → Nat → Nat → PILImage)
    (avail loadOk : Bool) (mp : ModelPredictFun) (data : List (Fin 256))
    (t : Tensor4) (pred : List ℚ) (rest : List (List ℚ))
    (hmargin : s.has_confidence_margin = true)
    (hdata : data ≠ [])
    (hload : avail = true ∨ loadOk = true)
    (hvalid : (validate_image_data dec data).valid = true)
    (hpre : preprocess_image dec cv rs data = some t)
    (hmp : mp t = .output (pred :: rest))
    (hlen : pred.length = class_names.length) :
    (predict s dec cv rs avail loadOk mp data).1.success = true ∧
    (predict s dec cv rs avail loadOk mp data).1.confidence_threshold_met =
      some (predict s dec cv rs avail loadOk mp data).2 ∧
    (sortDesc pred).headD 0 = listMax pred ∧
    ((predict s dec cv rs avail loadOk mp data).2 = true ↔
      s.CONFIDENCE_THRESHOLD ≤ (predict s dec cv rs avail loadOk mp data).1.confidence ∧
      s.CONFIDENCE_MARGIN ≤ (sortDesc pred).headD 0 - ((sortDesc pred).drop 1).headD 0) := by
  have hne : pred ≠ [] := by
    intro h; rw [h] at hlen; simp [class_names] at hlen
  rw [predict_eq_classify s dec cv rs avail loadOk mp data t pred rest
      hdata hload hvalid hpre hmp,
    classify_output_eq_of_len s pred hlen]
  refine ⟨rfl, rfl, headD_sortDesc pred hne 0, ?_⟩
  exact meets_threshold_calc_spec s (clampConf (listMax pred)) pred hmargin
    (by rw [sortDesc_length, hlen]; decide)

/-- C2 witness: the concrete fixtures satisfy every hypothesis of
`c2_meets_threshold_iff`, and the biconditional holds for them. -/
theorem c2_witness :
    settings.has_confidence_margin = true ∧
    ((predict settings decodeW convW resizeW true true mpW dataW).2 = true ↔
      settings.CONFIDENCE_THRESHOLD ≤
        (predict settings decodeW convW resizeW true true mpW dataW).1.confidence ∧
      settings.CONFIDENCE_MARGIN ≤
        (sortDesc predW).headD 0 - ((sortDesc predW).drop 1).headD 0) := by
  refine ⟨rfl, ?_⟩
  exact (c2_meets_threshold_iff settings decodeW convW resizeW true true mpW dataW
    tW predW [] rfl (by simp [dataW]) (Or.inl rfl) rfl rfl rfl rfl).2.2.2

/-- C7, counterexample: a decoded 100×100 image with format GIF — outside
the whitelist — passes coarse validation with only a `warning` key, and
with a working model fixture `predict` goes on to preprocess and infer
successfully (`success = true`), contrary to the claim that such input is
rejected before preprocessing. -/
theorem c7_counterexample :
    imgGif.format.getD "None" ∉ acceptable_formats ∧
    (validate_image_data decodeGif dataW).valid = true ∧
    (validate_image_data decodeGif dataW).warning = some "Unusual image format: GIF" ∧
    (predict settings decodeGif convW resizeW true true mpW dataW).1.success = true := by
  refine ⟨by decide, rfl, rfl, ?_⟩
  rw [predict_eq_classify settings decodeGif convW resizeW true true mpW dataW
      tGif predW [] (by simp [dataW]) (Or.inl rfl) rfl rfl rfl,
    classify_output_eq_of_len settings predW rfl]

/-- C7 (amended): the coarse validation performed before preprocessing
rejects (with `success = false` and a descriptive error, and without
preprocessing or inference being attempted) input that exceeds the 50MB
ceiling or decodes below the 50×50 floor; a decoded format outside the
JPEG/JPG/PNG/BMP/TIFF whitelist, however, is NOT rejected — it only
attaches a warning and the input is still processed. -/
theorem c7_validation_amended (dec : DecodeFun) (data : List (Fin 256))
    (img : PILImage) (hdec : dec data = .ok img) (hne : data ≠ []) :
    (data.length > 50 * 1024 * 1024 →
      (validate_image_data dec data).valid = false ∧
      (validate_image_data dec data).error = some "Image too large (>50MB)") ∧
    (¬ data.length > 50 * 1024 * 1024 → (img.width < 50 ∨ img.height < 50) →
      (validate_image_data dec data).valid = false ∧
      (validate_image_data dec data).error = some "Image too small (<50x50 pixels)") ∧
    (¬ data.length > 50 * 1024 * 1024 → ¬(img.width < 50 ∨ img.height < 50) →
      img.format.getD "None" ∉ acceptable_formats →
      (validate_image_data dec data).valid = true ∧
      (validate_image_data dec data).warning =
        some ("Unusual image format: " ++ img.format.getD "None")) ∧
    (∀ (s : MLSettings) (cv : PILImage → PILImage)
       (rs : PILImage → Nat → Nat → PILImage) (avail loadOk : Bool)
       (mp : ModelPredictFun),
      avail = true ∨ loadOk = true →
      (validate_image_data dec data).valid = false →
      predict s dec cv rs avail loadOk mp data =
        ({ disease := "error", confidence := 0,
           error := some ("Invalid image: " ++
             (validate_image_data dec data).error.getD "Unknown error"),
           success := false,
           validation_info := some (validate_image_data dec data) }, false)) := by
  refine ⟨?_, ?_, ?_, ?_⟩
  · intro hbig
    simp [validate_image_data, hne, hdec, hbig]
  · intro hbig hsmall
    simp [validate_image_data, hne, hdec, hbig, hsmall]
  · intro hbig hsmall hfmt
    simp [validate_image_data, hne, hdec, hbig, hsmall, hfmt]
  · intro s cv rs avail loadOk mp hload hval
    have hcond : ¬(avail = false ∧ loadOk = false) := by
      rcases hload with h | h <;> simp [h]
    simp [predict, if_neg hne, if_neg hcond, hval]

/-- C7 witness: the GIF fixture discharges the hypotheses of
`c7_validation_amended`, exercising the warn-but-accept conjunct. -/
theorem c7_witness :
    (validate_image_data decodeGif dataW).valid = true ∧
    (validate_image_data decodeGif dataW).warning = some "Unusual image format: GIF" := by
  have h := (c7_validation_amended decodeGif dataW imgGif rfl
    (by simp [dataW])).2.2.1 (by simp [dataW]) (by decide) (by decide)
  exact h

/-- C6, counterexample: in an environment where both the
working-directory-relative guess and the configured absolute `MODEL_PATH`
exist, the resolver returns the working-directory guess, not the absolute
configured path — the configured path is the LAST candidate, so explicit
config does not win, contrary to the claimed priority order. -/
theorem c6_counterexample :
    isAbsPath sAbs.MODEL_PATH = true ∧
    envW.pathExists sAbs.MODEL_PATH = true ∧
    resolve_model_path envW sAbs = some "/app/backend/ml/model.h5" ∧
    ¬ resolve_model_path envW sAbs = some sAbs.MODEL_PATH := by
  refine ⟨rfl, by decide, by decide, by decide⟩

/-- C6 (amended): `_resolve_model_path` returns the absolute form of the
first existing path in its fixed candidate order — cwd-relative guess,
parent-of-cwd guess, file-relative guess, config-relative guess, project
guess, and the configured `MODEL_PATH` LAST when absolute (lowest
priority, not highest) — and returns `none` (not an error) when no
candidate exists. -/
theorem c6_resolve_amended (env : PathEnv) (s : MLSettings) :
    ((∀ p ∈ model_path_candidates env s, env.pathExists p = false) →
      resolve_model_path env s = none) ∧
    (∀ (i : Nat) (h : i < (model_path_candidates env s).length),
      env.pathExists ((model_path_candidates env s).get ⟨i, h⟩) = true →
      (∀ j (hj : j < i),
        env.pathExists ((model_path_candidates env s).get ⟨j, Nat.lt_trans hj h⟩) = false) →
      resolve_model_path env s =
        some (abspath env ((model_path_candidates env s).get ⟨i, h⟩))) := by
  constructor
  · intro hall
    have hnone : (model_path_candidates env s).find? (fun p => env.pathExists p) = none :=
      List.find?_eq_none.mpr (fun x hx => by simp [hall x hx])
    simp [resolve_model_path, hnone]
  · intro i h hex hprev
    have hfind := find_eq_get_of_first (fun p => env.pathExists p)
      (model_path_candidates env s) i h hex hprev
    simp [resolve_model_path, hfind]

/-- C6 witness: with no existing path the resolver returns `none`; with the
cwd guess existing first it returns that guess (in absolute form). -/
theorem c6_witness :
    resolve_model_path envNone settings = none ∧
    resolve_model_path envW sAbs = some "/app/backend/ml/model.h5" := by
  constructor
  · exact (c6_resolve_amended envNone settings).1 (fun p _ => rfl)
  · have h := (c6_resolve_amended envW sAbs).2 0 (by decide) (by decide)
      (fun j hj => absurd hj (Nat.not_lt_zero j))
    rw [h]; decide

/-- C8: `load_model` is a total function (it can never propagate an
exception).  When the state is already loaded it returns true and leaves
the state untouched, for EVERY filesystem and deserializer — so nothing is
re-read; when no candidate path resolves it records the failure in
`load_error` and returns false, and an immediate second call returns false
again; when deserialization fails it records the failure and returns false
with `model_loaded` still false; on success it returns true with
`model_loaded = true` and `load_error` cleared. -/
theorem c8_load_model (M : Type) (env : PathEnv) (s : MLSettings)
    (f : String → Except String M) (st : ClassifierState M) :
    (st.model_loaded = true → load_model env s f st = (true, st)) ∧
    (resolve_model_path env s = none → st.model_loaded = false →
      (load_model env s f st).1 = false ∧
      (load_model env s f st).2.load_error =
        some "Model file not found in any expected location" ∧
      (load_model env s f ((load_model env s f st).2)).1 = false) ∧
    (∀ p e, st.model_loaded = false → resolve_model_path env s = some p →
      env.pathExists p = true → f p = .error e →
      (load_model env s f st).1 = false ∧
      (load_model env s f st).2.load_error = some ("Failed to load ML model: " ++ e) ∧
      (load_model env s f st).2.model_loaded = false) ∧
    (∀ p m, st.model_loaded = false → resolve_model_path env s = some p →
      env.pathExists p = true → f p = .ok m →
      load_model env s f st =
        (true, { st with model := some m, model_loaded := true, load_error := none })) := by
  refine ⟨?_, ?_, ?_, ?_⟩
  · intro h
    simp [load_model, h]
  · intro hres hnl
    refine ⟨by simp [load_model, hnl, hres], by simp [load_model, hnl, hres], ?_⟩
    simp [load_model, hnl, hres]
  · intro p e hnl hres hex herr
    simp [load_model, hnl, hres, hex, herr]
  · intro p m hnl hres hex hok
    simp [load_model, hnl, hres, hex, hok]

/-- C8 witness: with an empty filesystem two consecutive loads from the
initial state both return false, and with an existing path and a succeeding
deserializer the load returns true with a cleared error. -/
theorem c8_witness :
    (load_model envNone settings (fun _ => Except.error "boom") (initState Unit)).1 = false ∧
    (load_model envNone settings (fun _ => Except.error "boom")
      ((load_model envNone settings (fun _ => Except.error "boom") (initState Unit)).2)).1 = false ∧
    (load_model envW sAbs (fun _ => Except.ok (0 : Nat)) (initState Nat)).1 = true := by
  have h1 := (c8_load_model Unit envNone settings (fun _ => Except.error "boom")
    (initState Unit)).2.1 (by decide) rfl
  have h2 := (c8_load_model Nat envW sAbs (fun _ => Except.ok 0)
    (initState Nat)).2.2.2 "/app/backend/ml/model.h5" 0 rfl (by decide) (by decide) rfl
  exact ⟨h1.1, h1.2.2, by rw [h2]⟩

/-- C9: for every byte input that passes the 100-byte minimum-size floor
and decodes successfully, and for any resize respecting PIL's contract that
`Image.resize` returns an image of the requested dimensions,
`preprocess_image` returns a tensor of exact shape (1, 224, 224, 3) — a
leading batch dimension of size 1 — with every entry in [0, 1]. -/
theorem c9_preprocess_shape (dec : DecodeFun) (cv : PILImage → PILImage)
    (rs : PILImage → Nat → Nat → PILImage) (data : List (Fin 256)) (img : PILImage)
    (hrs : ∀ im w h, (rs im w h).width = w ∧ (rs im w h).height = h)
    (hlen : 100 ≤ data.length)
    (hdec : dec data = .ok img) :
    ∃ t, preprocess_image dec cv rs data = some t ∧
      t.shape = [1, 224, 224, 3] ∧
      ∀ b i j c, 0 ≤ t.entry b i j c ∧ t.entry b i j c ≤ 1 := by
  have hne : data ≠ [] := by
    intro h; rw [h] at hlen; simp at hlen
  have hsmall : ¬ data.length < 100 := by omega
  have h2 := hrs (if img.mode ≠ "RGB" then cv img else img) 224 224
  simp only [preprocess_image, if_neg hne, if_neg hsmall, hdec]
  rw [if_pos ⟨h2.2, h2.1⟩]
  refine ⟨_, rfl, rfl, ?_⟩
  intro b i j c
  constructor
  · exact div_nonneg (Nat.cast_nonneg _) (by norm_num)
  · rw [div_le_one (by norm_num : (0:ℚ) < 255)]
    exact_mod_cast Nat.le_of_lt_succ
      (((rs (if img.mode ≠ "RGB" then cv img else img) 224 224).px i j
        ⟨c % 3, Nat.mod_lt c (by omega)⟩).isLt)

/-- C9 witness: the concrete fixtures pass the floor and decode, and
`preprocess_image` produces the claimed shape on them. -/
theorem c9_witness :
    100 ≤ dataW.length ∧
    (∃ t, preprocess_image decodeW convW resizeW dataW = some t ∧
      t.shape = [1, 224, 224, 3]) := by
  obtain ⟨t, h1, h2, _⟩ := c9_preprocess_shape decodeW convW resizeW dataW imgW
    (fun im w h => ⟨rfl, rfl⟩) (by simp [dataW]) rfl
  exact ⟨by simp [dataW], t, h1, h2⟩

/-- C10: the invariant "`model_loaded = true` implies the model reference
is not `None`" holds after construction and is preserved by every call to
`load_model` (all failure branches included), and under it
`is_model_available` coincides with `model_loaded`. -/
theorem c10_available_iff_loaded (M : Type) (env : PathEnv) (s : MLSettings)
    (f : String → Except String M) (st : ClassifierState M) :
    stateInv (initState M) ∧
    (stateInv st → stateInv (load_model env s f st).2) ∧
    (stateInv st → is_model_available st = st.model_loaded) := by
  refine ⟨?_, ?_, ?_⟩
  · intro h
    simp [initState] at h
  · intro hinv
    unfold load_model
    by_cases hml : st.model_loaded
    · simpa [hml] using hinv
    · cases hres : resolve_model_path env s with
      | none =>
          intro h
          simp [hml, hres] at h
      | some p =>
          by_cases hex : env.pathExists p = false
          · intro h
            simp [hml, hres, hex] at h
          · cases hok : f p with
            | error e =>
                intro h
                simp [hml, hres, hex, hok] at h
            | ok m =>
                intro h
                simp [hml, hres, hex, hok]
  · intro hinv
    unfold is_model_available
    cases hml : st.model_loaded with
    | false => simp
    | true =>
        have := hinv hml
        cases hmodel : st.model with
        | none => exact absurd hmodel this
        | some m => simp [hmodel]

/-- C10 witness: the invariant holds for the freshly constructed state and
there the availability check equals the loaded flag. -/
theorem c10_witness :
    is_model_available (initState Nat) = (initState Nat).model_loaded := by
  have h := c10_available_iff_loaded Nat envNone settings
    (fun _ => Except.error "e") (initState Nat)
  exact h.2.2 h.1

end RiceGuard
